import Mathlib

/-!
Shallow embedding of the task-management service in `src/main.py` and proofs
about its query/aggregation layer.

The external record store (a hosted relational database reached through
`insert` / `select` / `update` / `delete` primitives) is modelled as a
`List Task`; one executed round trip to it is counted explicitly where an
endpoint's error-handling contract depends on whether a backend query ran.
Python floats are modelled as exact rationals (`ℚ`); the only float
operation used by the source, `round(x, 1)`, is modelled by `round1`.
Python string operations (`.lower()`, `.upper()`, `.strip()`, `.isalpha()`,
truthiness of strings and of `None`) are modelled by the corresponding
`String`/`Char`/`Option` operations; the inputs appearing in the concrete
theorems below are ASCII, where the two agree.
-/

namespace TaskApp

/-- Task row as stored by the backend: `id` and `created_at` are assigned by
the store on insert (`created_at` is an opaque ordinal timestamp). -/
structure Task where
  id : Nat
  title : String
  description : Option String
  completed : Bool
  created_at : Nat
  deriving Repr, DecidableEq

/-- Request body of `POST /tasks` (pydantic model `TaskCreate`). -/
structure TaskCreate where
  title : String
  description : Option String
  completed : Bool
  deriving Repr, DecidableEq

/-- Request body of `PUT /tasks/.. ` and bulk update (pydantic `TaskUpdate`):
`none` means "field not supplied". -/
structure TaskUpdate where
  title : Option String
  description : Option String
  completed : Option Bool
  deriving Repr, DecidableEq

/-- HTTP error classes used by the service: 400, 404, 500. -/
inductive ApiError where
  | badRequest (detail : String)
  | notFound (detail : String)
  | serverError (detail : String)
  deriving Repr, DecidableEq

/-- Select by id and take the first row, as
`supabase.table("tasks").select("*").eq("id", task_id).execute().data[0]`. -/
def lookupTask (task_id : Nat) (store : List Task) : Option Task :=
  (store.filter (fun t => t.id == task_id)).head?

/-- Backend `update(...).eq("id", task_id)`: rewrite every row with the id. -/
def updStore (task_id : Nat) (g : Task → Task) (store : List Task) : List Task :=
  store.map (fun t => if t.id == task_id then g t else t)

/-- Backend `delete().eq("id", task_id)`: drop every row with the id. -/
def delStore (task_id : Nat) (store : List Task) : List Task :=
  store.filter (fun t => !(t.id == task_id))

/-- Value of one field in a JSON payload sent to the record store. -/
inductive FieldValue where
  | s (v : String)
  | b (v : Bool)
  | null
  deriving Repr, DecidableEq

/-- A payload record sent to the store: ordered field-name/value pairs,
exactly the dict the Python code builds. -/
abbrev DbRecord := List (String × FieldValue)

def optStrValue : Option String → FieldValue
  | some v => .s v
  | none => .null

/-- Insert payload of `create_task` (and of each element of the batch
endpoint): the dict literal at src/main.py:143-147. -/
def createRecord (task : TaskCreate) : DbRecord :=
  [("title", .s task.title),
   ("description", optStrValue task.description),
   ("completed", .b task.completed)]

/-- Insert payloads of `create_tasks_batch` (src/main.py:507-514). -/
def batchRecords (tasks : List TaskCreate) : List DbRecord :=
  tasks.map createRecord

/-- Update payload built field by field from the non-`None` entries, in the
order title, description, completed (src/main.py:186-192 and 720-726). -/
def updateRecord (task : TaskUpdate) : DbRecord :=
  (match task.title with | some v => [("title", FieldValue.s v)] | none => []) ++
  (match task.description with | some v => [("description", FieldValue.s v)] | none => []) ++
  (match task.completed with | some v => [("completed", FieldValue.b v)] | none => [])

/-- Field names of a payload record. -/
def recFieldNames (r : DbRecord) : List String := r.map Prod.fst

/-- Apply a `TaskUpdate` payload to a row, as the backend does: supplied
fields overwrite, missing fields keep their value. -/
def applyTaskUpdate (u : TaskUpdate) (t : Task) : Task :=
  { t with
    title := u.title.getD t.title
    description := match u.description with | some d => some d | none => t.description
    completed := u.completed.getD t.completed }

/-- The store assigns consecutive fresh ids and stamps the rows with the
current time: backend side of a single `insert` of several records. -/
def insertRows (nextId now : Nat) : List TaskCreate → List Task
  | [] => []
  | r :: rs => Task.mk nextId r.title r.description r.completed now :: insertRows (nextId + 1) now rs

/-- Allow-list of sort keys validated by `get_all_tasks` (src/main.py:156). -/
def valid_sorts : List String := ["created_at", "title", "completed"]

/-- Actual columns of the `tasks` table; ordering by anything else makes the
backend raise. -/
def tableColumns : List String := ["id", "title", "description", "completed", "created_at"]

/-- Comparison used by the backend `order(sort_by)` for each column. -/
def taskLe (sort_by : String) (a b : Task) : Bool :=
  if sort_by == "title" then a.title ≤ b.title
  else if sort_by == "completed" then !a.completed || b.completed
  else if sort_by == "id" then a.id ≤ b.id
  else if sort_by == "description" then a.description.getD "" ≤ b.description.getD ""
  else a.created_at ≤ b.created_at

/-- Rows ordered by the requested column and direction (a stable sort). -/
def sortTasks (sort_by : String) (descOrder : Bool) (store : List Task) : List Task :=
  if descOrder then List.insertionSort (fun a b => taskLe sort_by b a = true) store
  else List.insertionSort (fun a b => taskLe sort_by a b = true) store

/-- Backend `select("*").order(sort_by, desc=..)`: succeeds on a real column,
raises on an unknown one. -/
def backendSelectOrdered (sort_by : String) (descOrder : Bool) (store : List Task) :
    Except String (List Task) :=
  if tableColumns.contains sort_by then .ok (sortTasks sort_by descOrder store)
  else .error ("column tasks." ++ sort_by ++ " does not exist")

/-- Case-insensitive prefix test on character lists. -/
def startsWithList : List Char → List Char → Bool
  | [], _ => true
  | _ :: _, [] => false
  | p :: ps, h :: hs => p == h && startsWithList ps hs

/-- Substring test on character lists. -/
def containsSub : List Char → List Char → Bool
  | [], pat => pat.isEmpty
  | h :: t, pat => startsWithList pat (h :: t) || containsSub t pat

/-- Backend `ilike(column, "%query%")`: case-insensitive containment. -/
def ilikeContains (text pat : String) : Bool :=
  containsSub (text.data.map Char.toLower) (pat.data.map Char.toLower)

/-- List response body: `{"tasks": [...], "count": N}`. -/
structure TaskListResponse where
  tasks : List Task
  count : Nat
  deriving Repr, DecidableEq

/-- GET /tasks (src/main.py:152-176). Second component: backend round trips
executed. Validates `sort_by` against the allow-list and `order` against
asc/desc before querying. -/
def get_all_tasks (sort_by order : String) (store : List Task) :
    Except ApiError TaskListResponse × Nat :=
  if !(valid_sorts.contains sort_by) then
    (.error (.badRequest "sort_by must be one of: created_at, title, completed"), 0)
  else if !(order == "asc" || order == "desc") then
    (.error (.badRequest "order must be asc or desc"), 0)
  else
    match backendSelectOrdered sort_by (order == "desc") store with
    | .ok ts => (.ok ⟨ts, ts.length⟩, 1)
    | .error e => (.error (.serverError ("Error loading tasks: " ++ e)), 1)

/-- GET /tasks/advanced-search (src/main.py:364-400). No validation of
`sort_by` or `order`: the query filters are applied and the order key is
passed straight to the backend; any failure there surfaces as a 500. An
`order` value other than "desc" sorts ascending. -/
def advanced_search (query : Option String) (completed : Option Bool)
    (sort_by order : String) (store : List Task) :
    Except ApiError TaskListResponse × Nat :=
  let afterQuery := match query with
    | some q => if q.isEmpty then store else store.filter (fun t => ilikeContains t.title q)
    | none => store
  let afterStatus := match completed with
    | some b => afterQuery.filter (fun t => t.completed == b)
    | none => afterQuery
  match backendSelectOrdered sort_by (order == "desc") afterStatus with
  | .ok ts => (.ok ⟨ts, ts.length⟩, 1)
  | .error e => (.error (.serverError ("Error in advanced search: " ++ e)), 1)

structure PaginationInfo where
  current_page : Int
  page_size : Int
  total_items : Nat
  total_pages : Nat
  has_next : Bool
  has_previous : Bool
  deriving Repr, DecidableEq

structure PaginatedResponse where
  tasks : List Task
  pagination : PaginationInfo
  deriving Repr, DecidableEq

/-- GET /tasks/paginated (src/main.py:459-494). Validates `page` and
`page_size` only; `sort_by`/`order` go to the backend unchecked. Performs a
count query and then the ranged query (`range(offset, offset+page_size-1)`
is inclusive on both ends). -/
def get_tasks_paginated (page page_size : Int) (sort_by order : String) (store : List Task) :
    Except ApiError PaginatedResponse × Nat :=
  if page < 1 then (.error (.badRequest "page must be at least 1"), 0)
  else if page_size < 1 || 100 < page_size then
    (.error (.badRequest "page_size must be between 1 and 100"), 0)
  else
    let offset := ((page - 1) * page_size).toNat
    let total_count := store.length
    match backendSelectOrdered sort_by (order == "desc") store with
    | .error e => (.error (.serverError ("Error getting paginated tasks: " ++ e)), 2)
    | .ok sorted =>
      let ps := page_size.toNat
      let total_pages := (total_count + ps - 1) / ps
      (.ok ⟨(sorted.drop offset).take ps,
            ⟨page, page_size, total_count, total_pages,
             decide (page < (total_pages : Int)), decide (1 < page)⟩⟩, 2)

/-- PATCH /tasks/toggle (src/main.py:320-343): read the current flag, write
its negation, return the updated row. -/
def toggle_task_completion (task_id : Nat) (store : List Task) :
    Except ApiError Task × List Task :=
  match lookupTask task_id store with
  | none => (.error (.notFound ("Task with id " ++ toString task_id ++ " not found")), store)
  | some t =>
    let new_status := !t.completed
    (.ok { t with completed := new_status },
     updStore task_id (fun u => { u with completed := new_status }) store)

structure DeleteResponse where
  deleted_task_id : Nat
  deleted_task : Task
  deriving Repr, DecidableEq

/-- DELETE /tasks/id (src/main.py:207-226): existence check first, 404 if
absent (no delete issued), otherwise delete and echo the removed row. -/
def delete_task (task_id : Nat) (store : List Task) :
    Except ApiError DeleteResponse × List Task :=
  match lookupTask task_id store with
  | none => (.error (.notFound ("Task with id " ++ toString task_id ++ " not found")), store)
  | some t => (.ok ⟨task_id, t⟩, delStore task_id store)

structure BulkDeleteResponse where
  deleted_ids : List Nat
  not_found_ids : List Nat
  deriving Repr, DecidableEq

/-- Per-id loop of bulk delete (src/main.py:593-602): check, delete if
present, otherwise record the id as not found; never aborts. -/
def bulkDeleteLoop : List Nat → List Nat → List Nat → List Task →
    List Nat × List Nat × List Task
  | [], deleted, notFound, store => (deleted, notFound, store)
  | i :: rest, deleted, notFound, store =>
    if (store.filter (fun t => t.id == i)).isEmpty then
      bulkDeleteLoop rest deleted (notFound ++ [i]) store
    else
      bulkDeleteLoop rest (deleted ++ [i]) notFound (delStore i store)

/-- DELETE /tasks/bulk-delete (src/main.py:580-614): rejects an empty id
list and one of more than 100 ids before touching the backend. -/
def bulk_delete_tasks (task_ids : List Nat) (store : List Task) :
    Except ApiError BulkDeleteResponse × List Task :=
  if task_ids.isEmpty then (.error (.badRequest "task_ids list cannot be empty"), store)
  else if 100 < task_ids.length then
    (.error (.badRequest "Cannot delete more than 100 tasks at once"), store)
  else
    let r := bulkDeleteLoop task_ids [] [] store
    (.ok ⟨r.1, r.2.1⟩, r.2.2)

structure BulkUpdateResponse where
  updated_tasks : List Task
  not_found_ids : List Nat
  deriving Repr, DecidableEq

/-- Per-id loop of bulk update (src/main.py:734-743): the store's `update`
response returns the rewritten rows, which are appended to the result. -/
def bulkUpdateLoop (u : TaskUpdate) : List Nat → List Task → List Nat → List Task →
    List Task × List Nat × List Task
  | [], updated, notFound, store => (updated, notFound, store)
  | i :: rest, updated, notFound, store =>
    if (store.filter (fun t => t.id == i)).isEmpty then
      bulkUpdateLoop u rest updated (notFound ++ [i]) store
    else
      let store2 := updStore i (applyTaskUpdate u) store
      bulkUpdateLoop u rest (updated ++ store2.filter (fun t => t.id == i)) notFound store2

/-- PATCH /tasks/bulk-update (src/main.py:709-755): rejects an empty id
list, more than 100 ids, and an update that sets no field, all before any
backend call. -/
def bulk_update_tasks (task_ids : List Nat) (update_data : TaskUpdate) (store : List Task) :
    Except ApiError BulkUpdateResponse × List Task :=
  if task_ids.isEmpty then (.error (.badRequest "task_ids list cannot be empty"), store)
  else if 100 < task_ids.length then
    (.error (.badRequest "Cannot update more than 100 tasks at once"), store)
  else if (updateRecord update_data).isEmpty then
    (.error (.badRequest "No fields to update"), store)
  else
    let r := bulkUpdateLoop update_data task_ids [] [] store
    (.ok ⟨r.1, r.2.1⟩, r.2.2)

/-- PUT /tasks/id (src/main.py:177-205). -/
def update_task (task_id : Nat) (task : TaskUpdate) (store : List Task) :
    Except ApiError Task × List Task :=
  match lookupTask task_id store with
  | none => (.error (.notFound ("Task with id " ++ toString task_id ++ " not found")), store)
  | some t =>
    if (updateRecord task).isEmpty then (.error (.badRequest "No fields to update"), store)
    else (.ok (applyTaskUpdate task t), updStore task_id (applyTaskUpdate task) store)

/-- POST /tasks (src/main.py:140-151): the store assigns id and timestamp. -/
def create_task (task : TaskCreate) (store : List Task) (nextId now : Nat) :
    Except ApiError Task × List Task :=
  match insertRows nextId now [task] with
  | [] => (.error (.serverError "Error creating task"), store)
  | t :: _ => (.ok t, store ++ [t])

structure CopyResponse where
  original_task : Task
  created_copies : List Task
  deriving Repr, DecidableEq

/-- POST /tasks/id/copy (src/main.py:901-938): `times` is validated before
the lookup; each copy starts pending and keeps the description; the title
gets a " (Copy)" suffix, numbered from 1 when several copies are made. -/
def copy_task (task_id : Nat) (times : Int) (store : List Task) (nextId now : Nat) :
    Except ApiError CopyResponse × List Task :=
  if times < 1 ∨ 10 < times then
    (.error (.badRequest "times must be between 1 and 10"), store)
  else
    match lookupTask task_id store with
    | none => (.error (.notFound ("Task with id " ++ toString task_id ++ " not found")), store)
    | some t =>
      let copies := (List.range times.toNat).map (fun i =>
        TaskCreate.mk
          (if 1 < times then t.title ++ " (Copy " ++ toString (i + 1) ++ ")"
           else t.title ++ " (Copy)")
          t.description false)
      let inserted := insertRows nextId now copies
      (.ok ⟨t, inserted⟩, store ++ inserted)

/-- Python truthiness of an optional string: `None` and `""` are falsy. -/
def strTruthy : Option String → Bool
  | none => false
  | some s => !s.isEmpty

/-- Truthiness of the stripped description, as in
`t.get("description") and t["description"].strip()`: the stripped string is
non-empty exactly when some character is not whitespace. -/
def descNonBlank : Option String → Bool
  | none => false
  | some s => s.data.any (fun c => !c.isWhitespace)

structure MergeResponse where
  merged_task : Task
  original_tasks_deleted : Bool
  deriving Repr, DecidableEq

/-- POST /tasks/merge (src/main.py:1263-1314): titles joined with " + ",
descriptions joined with " | " when both are truthy, completion is the
conjunction; originals deleted only on request, after the insert. -/
def merge_tasks (task_id_1 task_id_2 : Nat) (delete_originals : Bool)
    (store : List Task) (nextId now : Nat) :
    Except ApiError MergeResponse × List Task :=
  match lookupTask task_id_1 store with
  | none => (.error (.notFound ("Task " ++ toString task_id_1 ++ " not found")), store)
  | some t1 =>
    match lookupTask task_id_2 store with
    | none => (.error (.notFound ("Task " ++ toString task_id_2 ++ " not found")), store)
    | some t2 =>
      let merged_title := t1.title ++ " + " ++ t2.title
      let merged_desc : String :=
        if strTruthy t1.description && strTruthy t2.description then
          t1.description.getD "" ++ " | " ++ t2.description.getD ""
        else if strTruthy t1.description then t1.description.getD ""
        else if strTruthy t2.description then t2.description.getD ""
        else ""
      let merged_completed := t1.completed && t2.completed
      let newRec : TaskCreate :=
        ⟨merged_title, if merged_desc.isEmpty then none else some merged_desc, merged_completed⟩
      match insertRows nextId now [newRec] with
      | [] => (.error (.serverError "Error merging tasks"), store)
      | m :: _ =>
        let store2 := store ++ [m]
        let store3 := if delete_originals then delStore task_id_2 (delStore task_id_1 store2) else store2
        (.ok ⟨m, delete_originals⟩, store3)

/-- Python `round(x, 1)` on exact values: round to one decimal place.
Round-half-to-even and round-half-up differ only at exact .05 ties, which no
value in this development reaches. -/
def round1 (q : ℚ) : ℚ := ((round (q * 10) : ℤ) : ℚ) / 10

/-- Letter grade thresholds (src/main.py:1459-1470). -/
def gradeOf (score : ℚ) : String :=
  if 90 ≤ score then "A+"
  else if 80 ≤ score then "A"
  else if 70 ≤ score then "B"
  else if 60 ≤ score then "C"
  else if 50 ≤ score then "D"
  else "F"

structure ScoreBreakdown where
  completion : ℚ
  description_quality : ℚ
  task_volume : ℚ
  deriving Repr, DecidableEq

structure ProductivityResponse where
  score : ℚ
  grade : String
  breakdown : ScoreBreakdown
  total_tasks : Nat
  completed_tasks : Nat
  tasks_with_descriptions : Nat
  deriving Repr, DecidableEq

/-- GET /tasks/productivity-score (src/main.py:1434-1488): weighted score
(completion 40, descriptions 30, volume capped at 30 from 50 tasks), grade
from the unrounded total, reported values rounded to one decimal place. -/
def calculate_productivity_score (store : List Task) : ProductivityResponse :=
  if store.isEmpty then ⟨0, "N/A", ⟨0, 0, 0⟩, 0, 0, 0⟩
  else
    let total := store.length
    let completed := (store.filter (fun t => t.completed)).length
    let with_description := (store.filter (fun t => descNonBlank t.description)).length
    let completion_score : ℚ := ((completed : ℚ) / (total : ℚ)) * 40
    let description_score : ℚ := ((with_description : ℚ) / (total : ℚ)) * 30
    let volume_score : ℚ := min ((total : ℚ) / 50 * 30) 30
    let total_score := completion_score + description_score + volume_score
    ⟨round1 total_score, gradeOf total_score,
     ⟨round1 completion_score, round1 description_score, round1 volume_score⟩,
     total, completed, with_description⟩

/-- Grouping key of the alphabet list (src/main.py:1554-1556): the first
character of the title, uppercased, when it is a letter; otherwise `#`
(also for an empty title). -/
def firstLetterKey (title : String) : Char :=
  match title.data with
  | [] => '#'
  | c :: _ => if c.toUpper.isAlpha then c.toUpper else '#'

/-- Order on tasks by lowercased title (`key=lambda t: t["title"].lower()`),
used inside each alphabet group; lexicographic on the lowercased character
sequences. -/
def titleOrd (a b : Task) : Prop :=
  a.title.data.map Char.toLower ≤ b.title.data.map Char.toLower

instance : DecidableRel titleOrd := fun a b =>
  inferInstanceAs (Decidable (a.title.data.map Char.toLower ≤ b.title.data.map Char.toLower))

instance : IsTotal Task titleOrd :=
  ⟨fun a b => le_total (a.title.data.map Char.toLower) (b.title.data.map Char.toLower)⟩

instance : IsTrans Task titleOrd := ⟨fun _ _ _ hab hbc => le_trans hab hbc⟩

/-- GET /tasks/alphabet-list (src/main.py:1542-1575): tasks grouped by
`firstLetterKey`, groups listed with their keys in ascending order, each
group sorted by lowercased title. -/
def get_tasks_alphabetically (store : List Task) : List (Char × List Task) :=
  let keys := List.insertionSort (fun a b : Char => a ≤ b)
    ((store.map (fun t => firstLetterKey t.title)).dedup)
  keys.map (fun c =>
    (c, List.insertionSort titleOrd (store.filter (fun t => firstLetterKey t.title == c))))

/-- Reading of the spec sentence "group ... by ... first alphabetic
character uppercased, falling back to `#`", used to compare the claimed key
with the implemented one: scan the title for its first letter. -/
def specFirstAlphaKey (title : String) : Char :=
  match title.data.find? Char.isAlpha with
  | some c => c.toUpper
  | none => '#'

/-- True exactly on a 400-class result. -/
def isBadRequest {α : Type} : Except ApiError α → Bool
  | .error (.badRequest _) => true
  | _ => false

/-! ### Helper lemmas -/

theorem ceilDivNat_le_mul (a b : Nat) (hb : 0 < b) : a ≤ (a + b - 1) / b * b := by
  have h1 : b * ((a + b - 1) / b) + (a + b - 1) % b = a + b - 1 := Nat.div_add_mod _ _
  have h2 : (a + b - 1) % b < b := Nat.mod_lt _ hb
  rw [Nat.mul_comm] at h1
  generalize hX : (a + b - 1) / b * b = X at *
  omega

/-- Python's ceiling-division idiom `(a + b - 1) // b` computes the
mathematical ceiling of `a / b`. -/
theorem ceilDivNat_eq_ceil (a b : Nat) (hb : 0 < b) :
    (a + b - 1) / b = ⌈(a : ℚ) / (b : ℚ)⌉₊ := by
  have hbQ : (0 : ℚ) < (b : ℚ) := by exact_mod_cast hb
  apply le_antisymm
  · by_contra hlt
    push_neg at hlt
    have hceil : (a : ℚ) / b ≤ (⌈(a : ℚ) / b⌉₊ : ℚ) := Nat.le_ceil _
    have h1 : (a : ℚ) ≤ (⌈(a : ℚ) / b⌉₊ : ℚ) * b := by
      rwa [div_le_iff₀ hbQ] at hceil
    have h2 : a ≤ ⌈(a : ℚ) / b⌉₊ * b := by exact_mod_cast h1
    have h3 : (⌈(a : ℚ) / b⌉₊ + 1) * b ≤ (a + b - 1) / b * b :=
      Nat.mul_le_mul_right b (by omega)
    have h4 : (a + b - 1) / b * b ≤ a + b - 1 := Nat.div_mul_le_self _ _
    have e1 : (⌈(a : ℚ) / b⌉₊ + 1) * b = ⌈(a : ℚ) / b⌉₊ * b + b := by ring
    generalize hX : ⌈(a : ℚ) / b⌉₊ * b = X at *
    generalize hY : (a + b - 1) / b * b = Y at *
    omega
  · apply Nat.ceil_le.mpr
    rw [div_le_iff₀ hbQ]
    exact_mod_cast ceilDivNat_le_mul a b hb

theorem count_filter_eq {α : Type} [DecidableEq α] (p : α → Bool) (l : List α) (a : α) :
    (l.filter p).count a = if p a then l.count a else 0 := by
  induction l with
  | nil => simp
  | cons x xs ih =>
    by_cases hx : p x
    · simp only [List.filter_cons, hx, if_true]
      by_cases hax : a = x
      · subst hax; simp [List.count_cons, ih, hx]
      · simp [List.count_cons, ih, hax]
    · simp only [List.filter_cons, hx]
      by_cases hax : a = x
      · subst hax; simp_all [List.count_cons, ih]
      · simp_all [List.count_cons, ih]

theorem lookupTask_eq_none (task_id : Nat) (store : List Task)
    (h : ∀ t ∈ store, t.id ≠ task_id) : lookupTask task_id store = none := by
  unfold lookupTask
  have : store.filter (fun t => t.id == task_id) = [] :=
    List.filter_eq_nil_iff.mpr (fun t ht => by simpa using h t ht)
  rw [this]
  rfl

theorem lookupTask_mem {task_id : Nat} {store : List Task} {t : Task}
    (h : lookupTask task_id store = some t) : t ∈ store ∧ t.id = task_id := by
  unfold lookupTask at h
  have hmem : t ∈ store.filter (fun u => u.id == task_id) :=
    List.mem_of_mem_head? (by rw [h]; exact Option.mem_some_self t)
  rcases List.mem_filter.mp hmem with ⟨h1, h2⟩
  exact ⟨h1, by simpa using h2⟩

theorem filter_map_comm {α : Type} (f : α → α) (p : α → Bool) (l : List α)
    (hpf : ∀ x, p (f x) = p x) : (l.map f).filter p = (l.filter p).map f := by
  induction l with
  | nil => rfl
  | cons x xs ih =>
    cases hx : p x with
    | true =>
      have hfx : p (f x) = true := by rw [hpf x, hx]
      simp [List.filter_cons, hfx, hx, ih]
    | false =>
      have hfx : p (f x) = false := by rw [hpf x, hx]
      simp [List.filter_cons, hfx, hx, ih]

theorem filter_updStore_self (i : Nat) (g : Task → Task) (hg : ∀ u, (g u).id = u.id)
    (s : List Task) :
    (updStore i g s).filter (fun t => t.id == i) = (s.filter (fun t => t.id == i)).map g := by
  unfold updStore
  rw [filter_map_comm _ _ _ ?hpf]
  case hpf =>
    intro x
    by_cases hxi : (x.id == i) = true
    · rw [if_pos hxi, hg x]
    · rw [if_neg hxi]
  apply List.map_congr_left
  intro x hx
  rcases List.mem_filter.mp hx with ⟨-, hxi⟩
  exact if_pos hxi

theorem filter_updStore_ne (i j : Nat) (g : Task → Task) (hg : ∀ u, (g u).id = u.id)
    (hij : j ≠ i) (s : List Task) :
    (updStore i g s).filter (fun t => t.id == j) = s.filter (fun t => t.id == j) := by
  unfold updStore
  rw [filter_map_comm _ _ _ ?hpf]
  case hpf =>
    intro x
    by_cases hxi : (x.id == i) = true
    · rw [if_pos hxi, hg x]
    · rw [if_neg hxi]
  have : ∀ x ∈ s.filter (fun t => t.id == j), (if (x.id == i) = true then g x else x) = x := by
    intro x hx
    rcases List.mem_filter.mp hx with ⟨-, hxj⟩
    have hxj' : x.id = j := by simpa using hxj
    have : ¬((x.id == i) = true) := by simp [hxj', hij]
    exact if_neg this
  calc (s.filter (fun t => t.id == j)).map (fun x => if (x.id == i) = true then g x else x)
      = (s.filter (fun t => t.id == j)).map id := List.map_congr_left this
    _ = s.filter (fun t => t.id == j) := List.map_id _

theorem lookupTask_updStore_self (i : Nat) (g : Task → Task) (hg : ∀ u, (g u).id = u.id)
    (s : List Task) :
    lookupTask i (updStore i g s) = (lookupTask i s).map g := by
  unfold lookupTask
  rw [filter_updStore_self i g hg s, List.head?_map]

theorem filter_delStore_ne (i j : Nat) (hij : j ≠ i) (s : List Task) :
    (delStore i s).filter (fun t => t.id == j) = s.filter (fun t => t.id == j) := by
  unfold delStore
  rw [List.filter_filter]
  apply List.filter_congr
  intro x _
  by_cases hxj : x.id == j
  · have : x.id = j := by simpa using hxj
    simp [hxj, this, hij]
  · simp [hxj]

theorem filter_isEmpty_eq_not_any (p : Task → Bool) (s : List Task) :
    (s.filter p).isEmpty = !(s.any p) := by
  induction s with
  | nil => rfl
  | cons x xs ih =>
    by_cases hx : p x
    · simp [List.filter_cons, hx]
    · simp [List.filter_cons, hx, ih]

/-! ### Concrete fixtures used by witnesses and counterexamples -/

def taskA : Task := ⟨1, "Buy milk", none, false, 0⟩

def toggleTask : Task := ⟨7, "Write report", some "weekly", false, 3⟩

/-! ### C5 -/

/-- C5: for every task id absent from the store, `delete_task` returns a
not-found error and leaves the store unchanged; it never reports success
with an empty effect. -/
theorem C5_delete_missing_id (task_id : Nat) (store : List Task)
    (h : ∀ t ∈ store, t.id ≠ task_id) :
    delete_task task_id store =
      (.error (.notFound ("Task with id " ++ toString task_id ++ " not found")), store) := by
  unfold delete_task
  rw [lookupTask_eq_none task_id store h]

/-- Witness for C5 at a concrete store and id. -/
theorem C5_witness :
    (∀ t ∈ [taskA], t.id ≠ (99 : Nat)) ∧
    delete_task 99 [taskA] =
      (.error (.notFound ("Task with id " ++ toString (99 : Nat) ++ " not found")), [taskA]) :=
  ⟨by decide, C5_delete_missing_id 99 [taskA] (by decide)⟩

/-! ### C4 -/

/-- C4: for every existing task id, toggling completion twice restores the
completed flag the task had before the first toggle. -/
theorem C4_toggle_twice (task_id : Nat) (store : List Task) (t : Task)
    (h : lookupTask task_id store = some t) :
    ∃ r1 store1 r2 store2,
      toggle_task_completion task_id store = (.ok r1, store1) ∧
      toggle_task_completion task_id store1 = (.ok r2, store2) ∧
      (lookupTask task_id store2).map Task.completed = some t.completed := by
  have e1 : toggle_task_completion task_id store =
      (.ok { t with completed := !t.completed },
       updStore task_id (fun u => { u with completed := !t.completed }) store) := by
    unfold toggle_task_completion
    rw [h]
  have hl1 : lookupTask task_id
      (updStore task_id (fun u => { u with completed := !t.completed }) store) =
      some { t with completed := !t.completed } := by
    rw [lookupTask_updStore_self task_id
      (fun u => { u with completed := !t.completed }) (fun u => rfl) store, h]
    rfl
  have e2 : toggle_task_completion task_id
      (updStore task_id (fun u => { u with completed := !t.completed }) store) =
      (.ok { t with completed := !(!t.completed) },
       updStore task_id (fun u => { u with completed := !(!t.completed) })
         (updStore task_id (fun u => { u with completed := !t.completed }) store)) := by
    unfold toggle_task_completion
    rw [hl1]
  refine ⟨_, _, _, _, e1, e2, ?_⟩
  rw [lookupTask_updStore_self task_id
    (fun u => { u with completed := !(!t.completed) }) (fun u => rfl) _, hl1]
  simp [Bool.not_not]

/-- Witness for C4 at a concrete store and id. -/
theorem C4_witness :
    lookupTask 7 [toggleTask] = some toggleTask ∧
    ∃ r1 store1 r2 store2,
      toggle_task_completion 7 [toggleTask] = (.ok r1, store1) ∧
      toggle_task_completion 7 store1 = (.ok r2, store2) ∧
      (lookupTask 7 store2).map Task.completed = some toggleTask.completed :=
  ⟨rfl, C4_toggle_twice 7 [toggleTask] toggleTask rfl⟩

/-! ### C7 -/

/-- Exactly the fields a client is allowed to write. -/
def allowedFields : List String := ["title", "description", "completed"]

/-- C7: every write payload the service sends to the record store (create,
batch create, update, bulk update) carries a subset of
title/description/completed; `id` and `created_at` are never written. -/
theorem C7_payload_fields :
    (∀ t : TaskCreate, recFieldNames (createRecord t) = allowedFields) ∧
    (∀ ts : List TaskCreate, ∀ r ∈ batchRecords ts, recFieldNames r = allowedFields) ∧
    (∀ u : TaskUpdate, ∀ f ∈ recFieldNames (updateRecord u), f ∈ allowedFields) ∧
    (∀ t : TaskCreate, "id" ∉ recFieldNames (createRecord t) ∧
      "created_at" ∉ recFieldNames (createRecord t)) ∧
    (∀ u : TaskUpdate, "id" ∉ recFieldNames (updateRecord u) ∧
      "created_at" ∉ recFieldNames (updateRecord u)) := by
  refine ⟨fun t => rfl, ?_, ?_, ?_, ?_⟩
  · intro ts r hr
    rcases List.mem_map.mp hr with ⟨t, -, rfl⟩
    rfl
  · intro u f hf
    obtain ⟨ot, od, oc⟩ := u
    cases ot <;> cases od <;> cases oc <;>
      simp_all [recFieldNames, updateRecord, allowedFields] <;> tauto
  · intro t
    constructor <;> simp [recFieldNames, createRecord]
  · intro u
    obtain ⟨ot, od, oc⟩ := u
    cases ot <;> cases od <;> cases oc <;>
      constructor <;> simp [recFieldNames, updateRecord]

/-- Witness for C7 at concrete payloads. -/
theorem C7_witness :
    recFieldNames (createRecord ⟨"Buy milk", none, false⟩) = allowedFields ∧
    "id" ∉ recFieldNames (updateRecord ⟨none, none, some true⟩) :=
  ⟨C7_payload_fields.1 ⟨"Buy milk", none, false⟩,
   (C7_payload_fields.2.2.2.2 ⟨none, none, some true⟩).1⟩

/-! ### C1 -/

/-- C1 counterexample: with the invalid sort key "priority", neither
`advanced_search` nor `get_tasks_paginated` raises a client validation
error; both execute backend queries (one resp. two round trips) and surface
a server error. An invalid `order` value ("up") is not rejected at all but
silently sorts ascending. Only `get_all_tasks` validates. -/
theorem C1_counterexample :
    isBadRequest (advanced_search none none "priority" "desc" []).1 = false ∧
    (advanced_search none none "priority" "desc" []).2 = 1 ∧
    isBadRequest (get_tasks_paginated 1 10 "priority" "desc" []).1 = false ∧
    (get_tasks_paginated 1 10 "priority" "desc" []).2 = 2 ∧
    advanced_search none none "created_at" "up" [] = (.ok ⟨[], 0⟩, 1) :=
  ⟨rfl, rfl, rfl, rfl, rfl⟩

/-- C1 (amended): `get_all_tasks` rejects an invalid `sort_by` and an
invalid `order` with a client validation error before any backend query
(zero round trips). `advanced_search` and `get_tasks_paginated` perform no
such validation: an unknown sort column makes the backend query itself fail
and is surfaced as a server error after one resp. two executed round trips,
and an `order` value other than "desc" is treated as ascending. -/
theorem C1_sort_validation :
    (∀ sort_by order : String, ∀ store : List Task,
      valid_sorts.contains sort_by = false →
      ∃ d, get_all_tasks sort_by order store = (.error (.badRequest d), 0)) ∧
    (∀ sort_by order : String, ∀ store : List Task,
      valid_sorts.contains sort_by = true →
      (order == "asc") = false → (order == "desc") = false →
      ∃ d, get_all_tasks sort_by order store = (.error (.badRequest d), 0)) ∧
    (∀ sort_by order : String, ∀ q : Option String, ∀ c : Option Bool, ∀ store : List Task,
      tableColumns.contains sort_by = false →
      ∃ d, advanced_search q c sort_by order store = (.error (.serverError d), 1)) ∧
    (∀ sort_by order : String, ∀ store : List Task,
      tableColumns.contains sort_by = false →
      ∃ d, get_tasks_paginated 1 10 sort_by order store = (.error (.serverError d), 2)) ∧
    (∀ sort_by order : String, ∀ store : List Task,
      tableColumns.contains sort_by = true → (order == "desc") = false →
      (advanced_search none none sort_by order store).1 =
        .ok ⟨sortTasks sort_by false store, (sortTasks sort_by false store).length⟩) := by
  refine ⟨?_, ?_, ?_, ?_, ?_⟩
  · intro sort_by order store h
    have h' : sort_by ∉ valid_sorts := by simpa using h
    exact ⟨"sort_by must be one of: created_at, title, completed",
      by simp [get_all_tasks, h']⟩
  · intro sort_by order store h1 h2 h3
    have h1' : sort_by ∈ valid_sorts := by simpa using h1
    have h2' : order ≠ "asc" := by simpa using h2
    have h3' : order ≠ "desc" := by simpa using h3
    exact ⟨"order must be asc or desc", by simp [get_all_tasks, h1', h2', h3']⟩
  · intro sort_by order q c store h
    have h' : sort_by ∉ tableColumns := by simpa using h
    refine ⟨"Error in advanced search: " ++ ("column tasks." ++ sort_by ++ " does not exist"), ?_⟩
    simp [advanced_search, backendSelectOrdered, h']
  · intro sort_by order store h
    have h' : sort_by ∉ tableColumns := by simpa using h
    refine ⟨"Error getting paginated tasks: " ++
      ("column tasks." ++ sort_by ++ " does not exist"), ?_⟩
    simp [get_tasks_paginated, backendSelectOrdered, h']
  · intro sort_by order store h1 h2
    have h1' : sort_by ∈ tableColumns := by simpa using h1
    have h2b : (order == "desc") = false := h2
    simp [advanced_search, backendSelectOrdered, h1', h2b]

/-- Witness for C1 at concrete invalid parameters. -/
theorem C1_witness :
    (∃ d, get_all_tasks "priority" "desc" [taskA] = (.error (.badRequest d), 0)) ∧
    (∃ d, get_all_tasks "title" "up" [taskA] = (.error (.badRequest d), 0)) ∧
    (∃ d, advanced_search none none "priority" "asc" [taskA] = (.error (.serverError d), 1)) ∧
    (∃ d, get_tasks_paginated 1 10 "priority" "asc" [taskA] = (.error (.serverError d), 2)) :=
  ⟨C1_sort_validation.1 "priority" "desc" [taskA] rfl,
   C1_sort_validation.2.1 "title" "up" [taskA] rfl rfl rfl,
   C1_sort_validation.2.2.1 "priority" "asc" none none [taskA] rfl,
   C1_sort_validation.2.2.2.1 "priority" "asc" [taskA] rfl⟩

/-! ### C2 -/

/-- C2: for valid `page`/`page_size` (and an existing sort column, so the
backend query succeeds), the paginated listing returns exactly the slice
`[(page-1)*page_size, (page-1)*page_size + page_size)` of the ordered task
sequence, reports `total_pages = ⌈total_items / page_size⌉`, and has
`has_next` true iff `page < total_pages` and `has_previous` true iff
`page > 1`. -/
theorem C2_pagination (page page_size : Int) (sort_by order : String) (store : List Task)
    (hp : 1 ≤ page) (hs1 : 1 ≤ page_size) (hs2 : page_size ≤ 100)
    (hcol : tableColumns.contains sort_by = true) :
    get_tasks_paginated page page_size sort_by order store =
      (.ok ⟨((sortTasks sort_by (order == "desc") store).drop
               (((page - 1) * page_size).toNat)).take page_size.toNat,
            ⟨page, page_size, store.length,
             ⌈(store.length : ℚ) / (page_size.toNat : ℚ)⌉₊,
             decide (page < ((⌈(store.length : ℚ) / (page_size.toNat : ℚ)⌉₊ : Nat) : Int)),
             decide (1 < page)⟩⟩, 2) ∧
    (decide (page < ((⌈(store.length : ℚ) / (page_size.toNat : ℚ)⌉₊ : Nat) : Int)) = true ↔
      page < ((⌈(store.length : ℚ) / (page_size.toNat : ℚ)⌉₊ : Nat) : Int)) ∧
    (decide (1 < page) = true ↔ 1 < page) := by
  have hps : 0 < page_size.toNat := by omega
  have hcol' : sort_by ∈ tableColumns := by simpa using hcol
  refine ⟨?_, by simp, by simp⟩
  rw [← ceilDivNat_eq_ceil store.length page_size.toNat hps]
  unfold get_tasks_paginated
  rw [if_neg (by omega)]
  rw [if_neg (by simp; omega)]
  have hb : backendSelectOrdered sort_by (order == "desc") store =
      .ok (sortTasks sort_by (order == "desc") store) := by
    simp [backendSelectOrdered, hcol']
  rw [hb]

/-- The 23-task store of the specification's pagination example. -/
def store23 : List Task := (List.range 23).map (fun i => ⟨i + 1, "Task", none, false, i⟩)

/-- Witness for C2: `page_size = 10`, 23 tasks, page 3 holds 3 items,
`total_pages = 3`, `has_next` false, `has_previous` true. -/
theorem C2_witness :
    (1 : Int) ≤ 3 ∧ (1 : Int) ≤ 10 ∧ (10 : Int) ≤ 100 ∧
    tableColumns.contains "created_at" = true ∧
    ∃ resp : PaginatedResponse,
      get_tasks_paginated 3 10 "created_at" "asc" store23 = (.ok resp, 2) ∧
      resp.tasks.length = 3 ∧ resp.pagination.total_items = 23 ∧
      resp.pagination.total_pages = 3 ∧ resp.pagination.has_next = false ∧
      resp.pagination.has_previous = true := by
  have h := (C2_pagination 3 10 "created_at" "asc" store23 (by norm_num) (by norm_num)
    (by norm_num) (by decide)).1
  have hceil : (⌈(store23.length : ℚ) / (((10 : Int).toNat : Nat) : ℚ)⌉₊ : Nat) = 3 := by
    rw [← ceilDivNat_eq_ceil store23.length (10 : Int).toNat (by norm_num)]
    decide
  rw [hceil] at h
  exact ⟨by norm_num, by norm_num, by norm_num, by decide,
    ⟨_, h, by decide, by decide, by decide, by decide, by decide⟩⟩

/-! ### C3 -/

/-- Number of completed tasks, `sum(1 for t in data if t["completed"])`. -/
def completedCount (store : List Task) : Nat :=
  (store.filter (fun t => t.completed)).length

/-- Number of tasks with a non-blank description,
`sum(1 for t in data if t.get("description") and t["description"].strip())`. -/
def withDescCount (store : List Task) : Nat :=
  (store.filter (fun t => descNonBlank t.description)).length

/-- C3: for every non-empty task set the productivity score is
`(completed/total)*40 + (with_description/total)*30 + min(total/50*30, 30)`,
each component and the total are reported rounded to one decimal place, and
the letter grade comes from the fixed thresholds 90/80/70/60/50 applied to
the total score. -/
theorem C3_productivity_formula (store : List Task) (h : store ≠ []) :
    calculate_productivity_score store =
      ⟨round1 (((completedCount store : ℚ) / (store.length : ℚ)) * 40 +
          ((withDescCount store : ℚ) / (store.length : ℚ)) * 30 +
          min ((store.length : ℚ) / 50 * 30) 30),
        (if 90 ≤ ((completedCount store : ℚ) / (store.length : ℚ)) * 40 +
            ((withDescCount store : ℚ) / (store.length : ℚ)) * 30 +
            min ((store.length : ℚ) / 50 * 30) 30 then "A+"
         else if 80 ≤ ((completedCount store : ℚ) / (store.length : ℚ)) * 40 +
            ((withDescCount store : ℚ) / (store.length : ℚ)) * 30 +
            min ((store.length : ℚ) / 50 * 30) 30 then "A"
         else if 70 ≤ ((completedCount store : ℚ) / (store.length : ℚ)) * 40 +
            ((withDescCount store : ℚ) / (store.length : ℚ)) * 30 +
            min ((store.length : ℚ) / 50 * 30) 30 then "B"
         else if 60 ≤ ((completedCount store : ℚ) / (store.length : ℚ)) * 40 +
            ((withDescCount store : ℚ) / (store.length : ℚ)) * 30 +
            min ((store.length : ℚ) / 50 * 30) 30 then "C"
         else if 50 ≤ ((completedCount store : ℚ) / (store.length : ℚ)) * 40 +
            ((withDescCount store : ℚ) / (store.length : ℚ)) * 30 +
            min ((store.length : ℚ) / 50 * 30) 30 then "D"
         else "F"),
        ⟨round1 (((completedCount store : ℚ) / (store.length : ℚ)) * 40),
         round1 (((withDescCount store : ℚ) / (store.length : ℚ)) * 30),
         round1 (min ((store.length : ℚ) / 50 * 30) 30)⟩,
        store.length, completedCount store, withDescCount store⟩ := by
  unfold calculate_productivity_score
  rw [if_neg (by simpa [List.isEmpty_iff] using h)]
  rfl

/-- The spec example: 10 tasks, 5 completed, 5 with descriptions. -/
def exampleTasks : List Task :=
  [⟨1, "T1", some "d1", true, 1⟩, ⟨2, "T2", some "d2", true, 2⟩,
   ⟨3, "T3", some "d3", true, 3⟩, ⟨4, "T4", some "d4", true, 4⟩,
   ⟨5, "T5", some "d5", true, 5⟩, ⟨6, "T6", none, false, 6⟩,
   ⟨7, "T7", none, false, 7⟩, ⟨8, "T8", none, false, 8⟩,
   ⟨9, "T9", none, false, 9⟩, ⟨10, "T10", none, false, 10⟩]

/-- Witness for C3: the example yields completion 20.0, descriptions 15.0,
volume 6.0, total 41.0, grade F. -/
theorem C3_witness :
    exampleTasks ≠ [] ∧
    (calculate_productivity_score exampleTasks).breakdown =
      ⟨20, 15, 6⟩ ∧
    (calculate_productivity_score exampleTasks).score = 41 ∧
    (calculate_productivity_score exampleTasks).grade = "F" := by
  have h := C3_productivity_formula exampleTasks (by decide)
  have e1 : completedCount exampleTasks = 5 := by decide
  have e2 : withDescCount exampleTasks = 5 := by decide
  have e3 : exampleTasks.length = 10 := by decide
  refine ⟨by decide, ?_, ?_, ?_⟩ <;> rw [h] <;> rw [e1, e2, e3] <;>
    norm_num [round1, round_eq, Int.floor_eq_iff]


/-! ### C9 -/

theorem insertRows_length (now : Nat) (recs : List TaskCreate) :
    ∀ nextId, (insertRows nextId now recs).length = recs.length := by
  induction recs with
  | nil => intro nextId; rfl
  | cons r rs ih => intro nextId; simp [insertRows, ih]

theorem insertRows_fields (now : Nat) (recs : List TaskCreate) :
    ∀ nextId, ∀ tk ∈ insertRows nextId now recs,
      ∃ r ∈ recs, tk.title = r.title ∧ tk.description = r.description ∧
        tk.completed = r.completed := by
  induction recs with
  | nil => intro nextId tk htk; cases htk
  | cons r rs ih =>
    intro nextId tk htk
    rcases List.mem_cons.mp htk with rfl | hmem
    · exact ⟨r, List.mem_cons_self r rs, rfl, rfl, rfl⟩
    · rcases ih (nextId + 1) tk hmem with ⟨r2, hr2, h1, h2, h3⟩
      exact ⟨r2, List.mem_cons_of_mem r hr2, h1, h2, h3⟩

theorem insertRows_map_title (now : Nat) (recs : List TaskCreate) :
    ∀ nextId, (insertRows nextId now recs).map Task.title = recs.map TaskCreate.title := by
  induction recs with
  | nil => intro nextId; rfl
  | cons r rs ih => intro nextId; simp [insertRows, ih]

/-- C9: copying rejects `times` outside `[1,10]` with a client error before
any lookup; for `times` in range and an existing task, it creates exactly
`times` copies that all start pending and keep the original description, and
whose titles are the original title suffixed with " (Copy)" for a single
copy or " (Copy i)", i = 1..times, for several. -/
theorem C9_copy_semantics (task_id : Nat) (times : Int) (store : List Task)
    (nextId now : Nat) :
    ((times < 1 ∨ 10 < times) →
      copy_task task_id times store nextId now =
        (.error (.badRequest "times must be between 1 and 10"), store)) ∧
    (∀ t : Task, lookupTask task_id store = some t → 1 ≤ times → times ≤ 10 →
      ∃ copies store2,
        copy_task task_id times store nextId now = (.ok ⟨t, copies⟩, store2) ∧
        copies.length = times.toNat ∧
        (∀ c ∈ copies, c.completed = false ∧ c.description = t.description) ∧
        copies.map Task.title =
          (if times = 1 then [t.title ++ " (Copy)"]
           else (List.range times.toNat).map
             (fun i => t.title ++ " (Copy " ++ toString (i + 1) ++ ")"))) := by
  constructor
  · intro h
    unfold copy_task
    rw [if_pos h]
  · intro t ht h1 h10
    have hnot : ¬(times < 1 ∨ 10 < times) := by omega
    unfold copy_task
    rw [if_neg hnot, ht]
    refine ⟨_, _, rfl, ?_, ?_, ?_⟩
    · rw [insertRows_length]
      simp
    · intro c hc
      rcases insertRows_fields now _ nextId c hc with ⟨r, hr, e1, e2, e3⟩
      rcases List.mem_map.mp hr with ⟨i, -, rfl⟩
      exact ⟨e3, e2⟩
    · rw [insertRows_map_title, List.map_map]
      by_cases he : times = 1
      · subst he
        rfl
      · have hgt : 1 < times := by omega
        rw [if_neg he]
        apply List.map_congr_left
        intro i _
        simp [hgt]

/-- Source task used by the C9 witness. -/
def copySource : Task := ⟨4, "Plan trip", some "summer", true, 5⟩

/-- Witness for C9: two copies of an existing completed task are pending,
keep the description and get numbered " (Copy i)" suffixes. -/
theorem C9_witness :
    lookupTask 4 [copySource] = some copySource ∧ (1 : Int) ≤ 2 ∧ (2 : Int) ≤ 10 ∧
    ∃ copies store2,
      copy_task 4 2 [copySource] 10 9 = (.ok ⟨copySource, copies⟩, store2) ∧
      copies.length = (2 : Int).toNat ∧
      (∀ c ∈ copies, c.completed = false ∧ c.description = copySource.description) ∧
      copies.map Task.title =
        (if (2 : Int) = 1 then [copySource.title ++ " (Copy)"]
         else (List.range (2 : Int).toNat).map
           (fun i => copySource.title ++ " (Copy " ++ toString (i + 1) ++ ")")) :=
  ⟨rfl, by norm_num, by norm_num,
   (C9_copy_semantics 4 2 [copySource] 10 9).2 copySource rfl (by norm_num) (by norm_num)⟩

/-! ### C10 -/

theorem isEmpty_empty_str : ("" : String).isEmpty = true := rfl

theorem append_sep_isEmpty (x y : String) : (x ++ " | " ++ y).isEmpty = false := by
  cases hE : (x ++ " | " ++ y).isEmpty with
  | false => rfl
  | true =>
    exfalso
    rw [String.isEmpty_iff] at hE
    have hlen := congrArg String.length hE
    rw [String.length_append, String.length_append] at hlen
    have h3 : (" | " : String).length = 3 := rfl
    have h0 : ("" : String).length = 0 := rfl
    omega

/-- C10: merging two existing tasks creates a task completed iff both
originals are, titled with the two titles joined by " + ", and described by
both descriptions joined with " | " when both are present (non-empty), the
single present one when only one is, and null when neither is; the
originals are removed from the store exactly when `delete_originals` is
requested, while the merged task is always stored. -/
theorem C10_merge_semantics (task_id_1 task_id_2 : Nat) (delete_originals : Bool)
    (store : List Task) (nextId now : Nat) (t1 t2 : Task)
    (h1 : lookupTask task_id_1 store = some t1)
    (h2 : lookupTask task_id_2 store = some t2)
    (hfresh : ∀ t ∈ store, t.id ≠ nextId) :
    ∃ m store2,
      merge_tasks task_id_1 task_id_2 delete_originals store nextId now =
        (.ok ⟨m, delete_originals⟩, store2) ∧
      m.completed = (t1.completed && t2.completed) ∧
      m.title = t1.title ++ " + " ++ t2.title ∧
      m.description =
        (if strTruthy t1.description && strTruthy t2.description then
          some (t1.description.getD "" ++ " | " ++ t2.description.getD "")
         else if strTruthy t1.description then t1.description
         else if strTruthy t2.description then t2.description
         else none) ∧
      (delete_originals = true →
        (∀ t ∈ store2, t.id ≠ task_id_1 ∧ t.id ≠ task_id_2) ∧ m ∈ store2) ∧
      (delete_originals = false → t1 ∈ store2 ∧ t2 ∈ store2 ∧ m ∈ store2) := by
  have hmem1 := lookupTask_mem h1
  have hmem2 := lookupTask_mem h2
  have hne1 : nextId ≠ task_id_1 := fun he => hfresh t1 hmem1.1 (hmem1.2.trans he.symm)
  have hne2 : nextId ≠ task_id_2 := fun he => hfresh t2 hmem2.1 (hmem2.2.trans he.symm)
  unfold merge_tasks
  rw [h1, h2]
  simp only [insertRows]
  refine ⟨_, _, rfl, rfl, rfl, ?_, ?_, ?_⟩
  · -- description
    show (if (if strTruthy t1.description && strTruthy t2.description then
            t1.description.getD "" ++ " | " ++ t2.description.getD ""
          else if strTruthy t1.description then t1.description.getD ""
          else if strTruthy t2.description then t2.description.getD ""
          else "").isEmpty = true then none
         else some (if strTruthy t1.description && strTruthy t2.description then
            t1.description.getD "" ++ " | " ++ t2.description.getD ""
          else if strTruthy t1.description then t1.description.getD ""
          else if strTruthy t2.description then t2.description.getD ""
          else "")) = _
    cases ht1 : t1.description with
    | none =>
      cases ht2 : t2.description with
      | none => simp [strTruthy, isEmpty_empty_str]
      | some s2 =>
        cases hs2 : s2.isEmpty with
        | false => simp [strTruthy, hs2, isEmpty_empty_str]
        | true => simp [strTruthy, hs2, isEmpty_empty_str]
    | some s1 =>
      cases hs1 : s1.isEmpty with
      | false =>
        cases ht2 : t2.description with
        | none => simp [strTruthy, hs1, isEmpty_empty_str]
        | some s2 =>
          cases hs2 : s2.isEmpty with
          | false => simp [strTruthy, hs1, hs2, append_sep_isEmpty]
          | true => simp [strTruthy, hs1, hs2, isEmpty_empty_str]
      | true =>
        cases ht2 : t2.description with
        | none => simp [strTruthy, hs1, isEmpty_empty_str]
        | some s2 =>
          cases hs2 : s2.isEmpty with
          | false => simp [strTruthy, hs1, hs2, isEmpty_empty_str]
          | true => simp [strTruthy, hs1, hs2, isEmpty_empty_str]
  · -- delete_originals = true
    intro hd
    subst hd
    simp only [if_pos rfl]
    constructor
    · intro t ht
      rcases List.mem_filter.mp ht with ⟨ht1, hp2⟩
      rcases List.mem_filter.mp ht1 with ⟨-, hp1⟩
      constructor
      · simpa using hp1
      · simpa using hp2
    · apply List.mem_filter.mpr
      refine ⟨List.mem_filter.mpr ⟨?_, ?_⟩, ?_⟩
      · exact List.mem_append.mpr (Or.inr (List.mem_singleton.mpr rfl))
      · simpa using hne1
      · simpa using hne2
  · -- delete_originals = false
    intro hd
    subst hd
    simp only [Bool.false_eq_true, if_false]
    exact ⟨List.mem_append.mpr (Or.inl hmem1.1),
      List.mem_append.mpr (Or.inl hmem2.1),
      List.mem_append.mpr (Or.inr (List.mem_singleton.mpr rfl))⟩

/-- Tasks used by the C10 witness. -/
def mergeT1 : Task := ⟨1, "Buy milk", some "2 liters", true, 0⟩

def mergeT2 : Task := ⟨2, "Buy bread", none, false, 1⟩

/-- Witness for C10 at a concrete pair with `delete_originals = true`. -/
theorem C10_witness :
    lookupTask 1 [mergeT1, mergeT2] = some mergeT1 ∧
    lookupTask 2 [mergeT1, mergeT2] = some mergeT2 ∧
    (∀ t ∈ [mergeT1, mergeT2], t.id ≠ 3) ∧
    ∃ m store2,
      merge_tasks 1 2 true [mergeT1, mergeT2] 3 9 = (.ok ⟨m, true⟩, store2) ∧
      m.completed = (mergeT1.completed && mergeT2.completed) ∧
      m.title = mergeT1.title ++ " + " ++ mergeT2.title ∧
      m.description =
        (if strTruthy mergeT1.description && strTruthy mergeT2.description then
          some (mergeT1.description.getD "" ++ " | " ++ mergeT2.description.getD "")
         else if strTruthy mergeT1.description then mergeT1.description
         else if strTruthy mergeT2.description then mergeT2.description
         else none) ∧
      (true = true →
        (∀ t ∈ store2, t.id ≠ 1 ∧ t.id ≠ 2) ∧ m ∈ store2) ∧
      (true = false → mergeT1 ∈ store2 ∧ mergeT2 ∈ store2 ∧ m ∈ store2) :=
  ⟨rfl, rfl, by decide,
   C10_merge_semantics 1 2 true [mergeT1, mergeT2] 3 9 mergeT1 mergeT2 rfl rfl (by decide)⟩

/-! ### C6 -/

theorem any_eq_not_filter_isEmpty (p : Task → Bool) (s : List Task) :
    s.any p = !((s.filter p).isEmpty) := by
  rw [filter_isEmpty_eq_not_any, Bool.not_not]

theorem any_delStore_ne (i j : Nat) (hij : j ≠ i) (s : List Task) :
    (delStore i s).any (fun t => t.id == j) = s.any (fun t => t.id == j) := by
  rw [any_eq_not_filter_isEmpty, any_eq_not_filter_isEmpty, filter_delStore_ne i j hij]

theorem any_updStore_ne (i j : Nat) (g : Task → Task) (hg : ∀ u, (g u).id = u.id)
    (hij : j ≠ i) (s : List Task) :
    (updStore i g s).any (fun t => t.id == j) = s.any (fun t => t.id == j) := by
  rw [any_eq_not_filter_isEmpty, any_eq_not_filter_isEmpty, filter_updStore_ne i j g hg hij]

theorem bulkDeleteLoop_spec (ids : List Nat) :
    ∀ s : List Task, ∀ d nf : List Nat, ids.Nodup →
    (bulkDeleteLoop ids d nf s).1 = d ++ ids.filter (fun i => s.any (fun t => t.id == i)) ∧
    (bulkDeleteLoop ids d nf s).2.1 =
      nf ++ ids.filter (fun i => !(s.any (fun t => t.id == i))) := by
  induction ids with
  | nil => intro s d nf _; simp [bulkDeleteLoop]
  | cons i rest ih =>
    intro s d nf hnd
    rcases List.nodup_cons.mp hnd with ⟨hi, hrest⟩
    have hcongr : ∀ j ∈ rest,
        ((delStore i s).any (fun t => t.id == j)) = (s.any (fun t => t.id == j)) := by
      intro j hj
      exact any_delStore_ne i j (fun he => hi (he ▸ hj)) s
    have hcongr2 : ∀ j ∈ rest,
        (!((delStore i s).any (fun t => t.id == j))) = (!(s.any (fun t => t.id == j))) := by
      intro j hj
      rw [hcongr j hj]
    cases hp : (s.filter (fun t => t.id == i)).isEmpty with
    | true =>
      have hpany : s.any (fun t => t.id == i) = false := by
        rw [any_eq_not_filter_isEmpty, hp]
        rfl
      have hstep : bulkDeleteLoop (i :: rest) d nf s = bulkDeleteLoop rest d (nf ++ [i]) s := by
        show (if (s.filter (fun t => t.id == i)).isEmpty then
            bulkDeleteLoop rest d (nf ++ [i]) s
          else bulkDeleteLoop rest (d ++ [i]) nf (delStore i s)) = _
        rw [hp]
        exact if_pos rfl
      rw [hstep]
      rcases ih s d (nf ++ [i]) hrest with ⟨ih1, ih2⟩
      refine ⟨?_, ?_⟩
      · rw [ih1, List.filter_cons, hpany]
        simp
      · rw [ih2, List.filter_cons, hpany]
        simp
    | false =>
      have hpany : s.any (fun t => t.id == i) = true := by
        rw [any_eq_not_filter_isEmpty, hp]
        rfl
      have hstep : bulkDeleteLoop (i :: rest) d nf s =
          bulkDeleteLoop rest (d ++ [i]) nf (delStore i s) := by
        show (if (s.filter (fun t => t.id == i)).isEmpty then
            bulkDeleteLoop rest d (nf ++ [i]) s
          else bulkDeleteLoop rest (d ++ [i]) nf (delStore i s)) = _
        rw [hp]
        exact if_neg Bool.false_ne_true
      rw [hstep]
      rcases ih (delStore i s) (d ++ [i]) nf hrest with ⟨ih1, ih2⟩
      refine ⟨?_, ?_⟩
      · rw [ih1, List.filter_congr hcongr, List.filter_cons, hpany]
        simp
      · rw [ih2, List.filter_congr hcongr2, List.filter_cons, hpany]
        simp

theorem applyTaskUpdate_id (u : TaskUpdate) (t : Task) :
    (applyTaskUpdate u t).id = t.id := rfl

theorem bulkUpdateLoop_spec (u : TaskUpdate) (ids : List Nat) :
    ∀ s : List Task, ∀ up : List Task, ∀ nf : List Nat, ids.Nodup →
    (bulkUpdateLoop u ids up nf s).1 =
      up ++ ((ids.filter (fun i => s.any (fun t => t.id == i))).map
        (fun i => (s.filter (fun t => t.id == i)).map (applyTaskUpdate u))).flatten ∧
    (bulkUpdateLoop u ids up nf s).2.1 =
      nf ++ ids.filter (fun i => !(s.any (fun t => t.id == i))) := by
  induction ids with
  | nil => intro s up nf _; simp [bulkUpdateLoop]
  | cons i rest ih =>
    intro s up nf hnd
    rcases List.nodup_cons.mp hnd with ⟨hi, hrest⟩
    have hne : ∀ j ∈ rest, j ≠ i := fun j hj he => hi (he ▸ hj)
    have hcongr : ∀ j ∈ rest,
        ((updStore i (applyTaskUpdate u) s).any (fun t => t.id == j)) =
          (s.any (fun t => t.id == j)) := by
      intro j hj
      exact any_updStore_ne i j _ (applyTaskUpdate_id u) (hne j hj) s
    have hcongr2 : ∀ j ∈ rest,
        (!((updStore i (applyTaskUpdate u) s).any (fun t => t.id == j))) =
          (!(s.any (fun t => t.id == j))) := by
      intro j hj
      rw [hcongr j hj]
    cases hp : (s.filter (fun t => t.id == i)).isEmpty with
    | true =>
      have hpany : s.any (fun t => t.id == i) = false := by
        rw [any_eq_not_filter_isEmpty, hp]
        rfl
      have hstep : bulkUpdateLoop u (i :: rest) up nf s =
          bulkUpdateLoop u rest up (nf ++ [i]) s := by
        show (if (s.filter (fun t => t.id == i)).isEmpty then
            bulkUpdateLoop u rest up (nf ++ [i]) s
          else
            bulkUpdateLoop u rest
              (up ++ (updStore i (applyTaskUpdate u) s).filter (fun t => t.id == i)) nf
              (updStore i (applyTaskUpdate u) s)) = _
        rw [hp]
        exact if_pos rfl
      rw [hstep]
      rcases ih s up (nf ++ [i]) hrest with ⟨ih1, ih2⟩
      refine ⟨?_, ?_⟩
      · rw [ih1, List.filter_cons, hpany]
        simp
      · rw [ih2, List.filter_cons, hpany]
        simp
    | false =>
      have hpany : s.any (fun t => t.id == i) = true := by
        rw [any_eq_not_filter_isEmpty, hp]
        rfl
      have hstep : bulkUpdateLoop u (i :: rest) up nf s =
          bulkUpdateLoop u rest
            (up ++ (updStore i (applyTaskUpdate u) s).filter (fun t => t.id == i)) nf
            (updStore i (applyTaskUpdate u) s) := by
        show (if (s.filter (fun t => t.id == i)).isEmpty then
            bulkUpdateLoop u rest up (nf ++ [i]) s
          else
            bulkUpdateLoop u rest
              (up ++ (updStore i (applyTaskUpdate u) s).filter (fun t => t.id == i)) nf
              (updStore i (applyTaskUpdate u) s)) = _
        rw [hp]
        exact if_neg Bool.false_ne_true
      rw [hstep]
      rcases ih (updStore i (applyTaskUpdate u) s)
        (up ++ (updStore i (applyTaskUpdate u) s).filter (fun t => t.id == i)) nf hrest with
        ⟨ih1, ih2⟩
      have hfilters : ∀ j ∈ rest,
          (updStore i (applyTaskUpdate u) s).filter (fun t => t.id == j) =
            s.filter (fun t => t.id == j) := by
        intro j hj
        exact filter_updStore_ne i j _ (applyTaskUpdate_id u) (hne j hj) s
      refine ⟨?_, ?_⟩
      · rw [ih1, List.filter_congr hcongr, List.filter_cons, hpany,
          filter_updStore_self i _ (applyTaskUpdate_id u) s]
        have hmapc : (List.filter (fun j => s.any (fun t => t.id == j)) rest).map
              (fun j => ((updStore i (applyTaskUpdate u) s).filter
                (fun t => t.id == j)).map (applyTaskUpdate u)) =
            (List.filter (fun j => s.any (fun t => t.id == j)) rest).map
              (fun j => (s.filter (fun t => t.id == j)).map (applyTaskUpdate u)) := by
          apply List.map_congr_left
          intro j hj
          rw [hfilters j (List.mem_filter.mp hj).1]
        rw [hmapc]
        simp
      · rw [ih2, List.filter_congr hcongr2, List.filter_cons, hpany]
        simp

/-- C6 counterexample: a non-empty list of 101 ids that contains the id of a
stored task is rejected wholesale with a client error; the present id is not
processed and the store is untouched, contrary to the claim that every
non-empty list has its present ids processed. -/
theorem C6_counterexample :
    List.range' 1 101 ≠ [] ∧
    (1 : Nat) ∈ List.range' 1 101 ∧
    taskA.id = 1 ∧
    bulk_delete_tasks (List.range' 1 101) [taskA] =
      (.error (.badRequest "Cannot delete more than 100 tasks at once"), [taskA]) :=
  ⟨by decide, by decide, rfl, rfl⟩

/-- C6 (amended): an empty id list and a list of more than 100 ids are
rejected as client errors before any backend call (and bulk-update also
rejects an update that sets no field); for a non-empty list of at most 100
distinct ids, the ids present in the store are processed (deleted resp.
updated, with the updated rows reported), the absent ids are collected into
a not-found list reported alongside the successes, and an absent id never
aborts processing of the remaining ids. -/
theorem C6_bulk_ops (task_ids : List Nat) (u : TaskUpdate) (store : List Task) :
    (task_ids = [] →
      bulk_delete_tasks task_ids store =
        (.error (.badRequest "task_ids list cannot be empty"), store) ∧
      bulk_update_tasks task_ids u store =
        (.error (.badRequest "task_ids list cannot be empty"), store)) ∧
    (100 < task_ids.length →
      bulk_delete_tasks task_ids store =
        (.error (.badRequest "Cannot delete more than 100 tasks at once"), store) ∧
      bulk_update_tasks task_ids u store =
        (.error (.badRequest "Cannot update more than 100 tasks at once"), store)) ∧
    (task_ids ≠ [] → task_ids.length ≤ 100 → task_ids.Nodup →
      (∃ store2, bulk_delete_tasks task_ids store =
        (.ok ⟨task_ids.filter (fun i => store.any (fun t => t.id == i)),
              task_ids.filter (fun i => !(store.any (fun t => t.id == i)))⟩, store2)) ∧
      (updateRecord u ≠ [] →
        ∃ store2, bulk_update_tasks task_ids u store =
          (.ok ⟨((task_ids.filter (fun i => store.any (fun t => t.id == i))).map
                   (fun i => (store.filter (fun t => t.id == i)).map
                     (applyTaskUpdate u))).flatten,
                task_ids.filter (fun i => !(store.any (fun t => t.id == i)))⟩,
           store2))) := by
  refine ⟨?_, ?_, ?_⟩
  · intro h
    subst h
    constructor <;> rfl
  · intro hlen
    have hE : task_ids.isEmpty = false := by
      cases hI : task_ids.isEmpty
      · rfl
      · rw [List.isEmpty_iff.mp hI] at hlen
        simp at hlen
    constructor
    · unfold bulk_delete_tasks
      rw [hE]
      rw [if_neg Bool.false_ne_true, if_pos hlen]
    · unfold bulk_update_tasks
      rw [hE]
      rw [if_neg Bool.false_ne_true, if_pos hlen]
  · intro hne hlen hnd
    have hE : task_ids.isEmpty = false := by
      cases hI : task_ids.isEmpty
      · rfl
      · exact absurd (List.isEmpty_iff.mp hI) hne
    have hlen2 : ¬(100 < task_ids.length) := by omega
    constructor
    · have hDel := bulkDeleteLoop_spec task_ids store [] [] hnd
      have e : bulk_delete_tasks task_ids store =
          (.ok ⟨(bulkDeleteLoop task_ids [] [] store).1,
                (bulkDeleteLoop task_ids [] [] store).2.1⟩,
           (bulkDeleteLoop task_ids [] [] store).2.2) := by
        unfold bulk_delete_tasks
        rw [hE]
        rw [if_neg Bool.false_ne_true, if_neg hlen2]
      refine ⟨(bulkDeleteLoop task_ids [] [] store).2.2, ?_⟩
      rw [e, hDel.1, hDel.2]
      simp
    · intro hu
      have hU : (updateRecord u).isEmpty = false := by
        cases hI : (updateRecord u).isEmpty
        · rfl
        · exact absurd (List.isEmpty_iff.mp hI) hu
      have hUpd := bulkUpdateLoop_spec u task_ids store [] [] hnd
      have e : bulk_update_tasks task_ids u store =
          (.ok ⟨(bulkUpdateLoop u task_ids [] [] store).1,
                (bulkUpdateLoop u task_ids [] [] store).2.1⟩,
           (bulkUpdateLoop u task_ids [] [] store).2.2) := by
        unfold bulk_update_tasks
        rw [hE, hU]
        rw [if_neg Bool.false_ne_true, if_neg hlen2, if_neg Bool.false_ne_true]
      refine ⟨(bulkUpdateLoop u task_ids [] [] store).2.2, ?_⟩
      rw [e, hUpd.1, hUpd.2]
      simp

/-- Witness for C6: ids [1, 3] against a store holding only id 1: id 1 is
deleted resp. updated, id 3 is reported as not found, nothing aborts. -/
theorem C6_witness :
    ([1, 3] : List Nat) ≠ [] ∧ ([1, 3] : List Nat).length ≤ 100 ∧
    ([1, 3] : List Nat).Nodup ∧
    updateRecord ⟨none, none, some true⟩ ≠ [] ∧
    (∃ store2, bulk_delete_tasks [1, 3] [taskA] =
      (.ok ⟨[1, 3].filter (fun i => [taskA].any (fun t => t.id == i)),
            [1, 3].filter (fun i => !([taskA].any (fun t => t.id == i)))⟩, store2)) ∧
    (∃ store2, bulk_update_tasks [1, 3] ⟨none, none, some true⟩ [taskA] =
      (.ok ⟨((([1, 3] : List Nat).filter (fun i => [taskA].any (fun t => t.id == i))).map
               (fun i => ([taskA].filter (fun t => t.id == i)).map
                 (applyTaskUpdate ⟨none, none, some true⟩))).flatten,
            [1, 3].filter (fun i => !([taskA].any (fun t => t.id == i)))⟩, store2)) := by
  have h := (C6_bulk_ops [1, 3] ⟨none, none, some true⟩ [taskA]).2.2
    (by decide) (by decide) (by decide)
  exact ⟨by decide, by decide, by decide, by decide, h.1, h.2 (by decide)⟩

/-! ### C8 -/

/-- Task whose title starts with a digit, separating the two grouping keys. -/
def oddTask : Task := ⟨1, "1apple", none, false, 0⟩

/-- C8 counterexample: for the title "1apple" the claimed key (first
alphabetic character, uppercased) is A, but the code keys on the first
character: it is not a letter, so the task is filed under '#' and no 'A'
group exists. -/
theorem C8_counterexample :
    specFirstAlphaKey oddTask.title = 'A' ∧
    firstLetterKey oddTask.title = '#' ∧
    get_tasks_alphabetically [oddTask] = [('#', [oddTask])] :=
  ⟨rfl, rfl, rfl⟩

theorem sum_map_single_hit {β : Type} [DecidableEq β] (c : β) (n : Nat) :
    ∀ ks : List β, ks.Nodup → c ∈ ks →
    (ks.map (fun k => if c = k then n else 0)).sum = n := by
  intro ks
  induction ks with
  | nil => intro _ hc; cases hc
  | cons k rest ih =>
    intro hnd hc
    rcases List.nodup_cons.mp hnd with ⟨hk, hrest⟩
    rcases List.mem_cons.mp hc with rfl | hc2
    · have hzero : (rest.map (fun j => if c = j then n else 0)).sum = 0 := by
        apply List.sum_eq_zero
        intro x hx
        rcases List.mem_map.mp hx with ⟨j, hj, rfl⟩
        have hcj : c ≠ j := fun he => hk (by rw [he]; exact hj)
        exact if_neg hcj
      rw [List.map_cons, if_pos rfl, List.sum_cons, hzero]
      omega
    · have hck : c ≠ k := fun he => hk (by rw [← he]; exact hc2)
      rw [List.map_cons, if_neg hck, List.sum_cons, ih hrest hc2]
      omega

/-- C8 (amended): the alphabet listing groups each task under the uppercased
first character of its title when that character is a letter and under '#'
otherwise (also for empty titles); within each group the tasks are sorted by
title case-insensitively, and the union of the groups is, as a multiset,
exactly the input task set. -/
theorem C8_alphabet_grouping (store : List Task) :
    (∀ p ∈ get_tasks_alphabetically store,
      p.2 = List.insertionSort titleOrd
        (store.filter (fun t => firstLetterKey t.title == p.1)) ∧
      p.2.Sorted titleOrd) ∧
    (∀ t ∈ store, ∃ p ∈ get_tasks_alphabetically store,
      p.1 = firstLetterKey t.title ∧ t ∈ p.2) ∧
    List.Perm ((get_tasks_alphabetically store).map Prod.snd).flatten store := by
  have hdef : get_tasks_alphabetically store =
      (List.insertionSort (fun a b : Char => a ≤ b)
        ((store.map (fun t => firstLetterKey t.title)).dedup)).map
        (fun c => (c, List.insertionSort titleOrd
          (store.filter (fun t => firstLetterKey t.title == c)))) := rfl
  have hnd : (List.insertionSort (fun a b : Char => a ≤ b)
      ((store.map (fun t => firstLetterKey t.title)).dedup)).Nodup :=
    ((List.perm_insertionSort _ _).nodup_iff).mpr (List.nodup_dedup _)
  refine ⟨?_, ?_, ?_⟩
  · intro p hp
    rw [hdef] at hp
    rcases List.mem_map.mp hp with ⟨c, -, rfl⟩
    exact ⟨rfl, List.sorted_insertionSort titleOrd _⟩
  · intro t ht
    have hkmem : firstLetterKey t.title ∈
        (store.map (fun u => firstLetterKey u.title)).dedup :=
      List.mem_dedup.mpr (List.mem_map.mpr ⟨t, ht, rfl⟩)
    have hkeys : firstLetterKey t.title ∈ List.insertionSort (fun a b : Char => a ≤ b)
        ((store.map (fun u => firstLetterKey u.title)).dedup) :=
      (List.perm_insertionSort _ _).mem_iff.mpr hkmem
    refine ⟨(firstLetterKey t.title, List.insertionSort titleOrd
      (store.filter (fun u => firstLetterKey u.title == firstLetterKey t.title))), ?_, rfl, ?_⟩
    · rw [hdef]
      exact List.mem_map.mpr ⟨firstLetterKey t.title, hkeys, rfl⟩
    · apply (List.perm_insertionSort titleOrd _).mem_iff.mpr
      exact List.mem_filter.mpr ⟨ht, by simp⟩
  · rw [hdef, List.map_map]
    apply List.perm_iff_count.mpr
    intro x
    rw [List.count_flatten, List.map_map]
    have hcount : ∀ c ∈ List.insertionSort (fun a b : Char => a ≤ b)
        ((store.map (fun t => firstLetterKey t.title)).dedup),
        List.count x (List.insertionSort titleOrd
          (store.filter (fun t => firstLetterKey t.title == c))) =
        if firstLetterKey x.title = c then List.count x store else 0 := by
      intro c _
      rw [(List.perm_insertionSort titleOrd _).count_eq]
      rw [count_filter_eq]
      by_cases hfx : firstLetterKey x.title = c
      · rw [if_pos hfx]
        exact if_pos (by simpa using hfx)
      · rw [if_neg hfx]
        exact if_neg (by simpa using hfx)
    have hmap : (List.insertionSort (fun a b : Char => a ≤ b)
        ((store.map (fun t => firstLetterKey t.title)).dedup)).map
          (List.count x ∘ (Prod.snd ∘ fun c => (c, List.insertionSort titleOrd
            (store.filter (fun t => firstLetterKey t.title == c))))) =
        (List.insertionSort (fun a b : Char => a ≤ b)
          ((store.map (fun t => firstLetterKey t.title)).dedup)).map
          (fun c => if firstLetterKey x.title = c then List.count x store else 0) :=
      List.map_congr_left (fun c hc => hcount c hc)
    rw [hmap]
    by_cases hx : x ∈ store
    · have hkeys : firstLetterKey x.title ∈ List.insertionSort (fun a b : Char => a ≤ b)
          ((store.map (fun t => firstLetterKey t.title)).dedup) :=
        (List.perm_insertionSort _ _).mem_iff.mpr
          (List.mem_dedup.mpr (List.mem_map.mpr ⟨x, hx, rfl⟩))
      exact sum_map_single_hit (firstLetterKey x.title) (List.count x store) _ hnd hkeys
    · rw [List.count_eq_zero.mpr hx]
      apply List.sum_eq_zero
      intro y hy
      rcases List.mem_map.mp hy with ⟨c, -, rfl⟩
      exact ite_self 0

/-- Tasks used by the C8 witness. -/
def alphaTasks : List Task :=
  [⟨1, "banana", none, false, 0⟩, ⟨2, "Apple", none, false, 1⟩,
   ⟨3, "avocado", none, true, 2⟩]

/-- Witness for C8 at a concrete store. -/
theorem C8_witness :
    ((⟨1, "banana", none, false, 0⟩ : Task) ∈ alphaTasks) ∧
    (∃ p ∈ get_tasks_alphabetically alphaTasks,
      p.1 = firstLetterKey (⟨1, "banana", none, false, 0⟩ : Task).title ∧
      (⟨1, "banana", none, false, 0⟩ : Task) ∈ p.2) ∧
    List.Perm ((get_tasks_alphabetically alphaTasks).map Prod.snd).flatten alphaTasks :=
  ⟨by decide,
   (C8_alphabet_grouping alphaTasks).2.1 ⟨1, "banana", none, false, 0⟩ (by decide),
   (C8_alphabet_grouping alphaTasks).2.2⟩
end TaskApp
